import Mathlib

/-!
# noSleep dongle: idle-motion and mute-trigger controllers

A shallow embedding of `src/main.cpp` (an Arduino sketch) and theorems about it.

* Global variables of the sketch are the fields of `Globals`.
* Every hardware input a function reads is an argument of its embedding: the
  level returned by `digitalRead`, the value returned by each `millis()` call
  (one argument per call site, in program order) and the value returned by
  `random(20000,55000)`.
* Every hardware output is an `Effect`; each function returns the list of
  effects it performs, in program order. A call of `random` advances the
  generator and is an effect too; the value it returns is an argument.
* `unsigned long` is 32 bits wide on the boards that provide `Mouse.h` and
  `Keyboard.h`; subtraction of two such values is `usub`, reduced modulo `2^32`.
* `boolean` variables and pin levels are `Bool`, with `HIGH = true`, `LOW = false`
  as in `Arduino.h` (`HIGH 0x1`, `LOW 0x0`).
-/

namespace NoSleep

/-! ## Data model -/

/-- A digital pin level, also the type of the sketch's `boolean` variables. -/
abbrev Level := Bool

/-- Arduino `HIGH` (0x1). -/
abbrev HIGH : Level := true

/-- Arduino `LOW` (0x0). -/
abbrev LOW : Level := false

/-- Pin number of the enable switch (`const int ENABLE_SWITCH = 2`). -/
def ENABLE_SWITCH : Nat := 2

/-- Pin number of the enable LED (`const int ENABLE_LED = 4`). -/
def ENABLE_LED : Nat := 4

/-- Pin number of the mute button (`const int MUTE_BUTTON = 6`). -/
def MUTE_BUTTON : Nat := 6

/-- Pin number of the mute LED (`const int MUTE_LED = 8`). -/
def MUTE_LED : Nat := 8

/-- Number of values of an `unsigned long`: `2^32`. -/
def ULONG_MOD : Nat := 4294967296

/-- Subtraction of two `unsigned long` values: `(a - b) mod 2^32`. -/
def usub (a b : Nat) : Nat := (a + (ULONG_MOD - b % ULONG_MOD)) % ULONG_MOD

/-- Keys handed to `Keyboard.press`. -/
inductive Key where
  | KEY_LEFT_CTRL
  | KEY_LEFT_SHIFT
  | char (c : Char)
  deriving DecidableEq, Repr

/-- Pin modes handed to `pinMode`. -/
inductive PinMode where
  | INPUT_PULLUP
  | OUTPUT
  deriving DecidableEq, Repr

/-- The observable actions of the sketch on its hardware collaborators. -/
inductive Effect where
  | digitalWrite (pin : Nat) (val : Level)
  | mouseMove (x y wheel : Int)
  | keyboardPress (k : Key)
  | keyboardReleaseAll
  | delay (ms : Nat)
  | mouseBegin
  | keyboardBegin
  | pinMode (pin : Nat) (mode : PinMode)
  | randomSeed (seed : Nat)
  | random (howsmall howbig : Nat)
  deriving DecidableEq, Repr

/-- The global variables of the sketch (lines 33-39). -/
structure Globals where
  lastMoveTime : Nat
  randomMouseDelay : Nat
  buttonState : Level
  lastButtonState : Level
  lastDebounceTime : Nat
  debounceDelay : Nat
  muteLEDState : Level
  deriving DecidableEq, Repr

/-- The globals as their initialisers leave them; `buttonState` has no
initialiser and is zero-initialised. -/
def initGlobals : Globals where
  lastMoveTime := 0
  randomMouseDelay := 0
  buttonState := LOW
  lastButtonState := HIGH
  lastDebounceTime := 0
  debounceDelay := 50
  muteLEDState := LOW

/-- Outcome of running a function of the sketch: its return value, the globals
afterwards and the effects it performed, oldest first. -/
structure Step (α : Type) where
  ret : α
  globals : Globals
  trace : List Effect
  deriving DecidableEq, Repr

/-! ## The functions of the sketch -/

/-- Embedding of `shouldMoveMouse` (lines 46-59). `sw` is the level read from
`ENABLE_SWITCH`, `tTest` the `millis()` of line 50, `tStore` the `millis()` of
line 51 and `rnd` the value of `random(20000,55000)` on line 52. -/
def shouldMoveMouse (sw : Level) (tTest tStore rnd : Nat) (g : Globals) : Step Bool :=
  if sw = LOW then
    if usub tTest g.lastMoveTime > g.randomMouseDelay then
      { ret := true
        globals := { g with lastMoveTime := tStore, randomMouseDelay := rnd }
        trace := [Effect.digitalWrite ENABLE_LED HIGH, Effect.random 20000 55000] }
    else
      { ret := false
        globals := g
        trace := [Effect.digitalWrite ENABLE_LED HIGH, Effect.digitalWrite ENABLE_LED LOW] }
  else
    { ret := false
      globals := g
      trace := [Effect.digitalWrite ENABLE_LED LOW] }

/-- Embedding of `moveMouse` (lines 65-68). -/
def moveMouse (g : Globals) : Step Unit :=
  { ret := ()
    globals := g
    trace := [Effect.mouseMove 1 0 0, Effect.mouseMove (-1) 0 0] }

/-- Embedding of `shouldMuteTeams` (lines 75-93). `reading` is the level read
from `MUTE_BUTTON`, `tStore` the `millis()` of line 81 and `tTest` the
`millis()` of line 85. -/
def shouldMuteTeams (reading : Level) (tStore tTest : Nat) (g : Globals) : Step Bool :=
  let g1 : Globals :=
    if reading ≠ g.lastButtonState then
      { g with lastDebounceTime := tStore, lastButtonState := reading }
    else g
  if usub tTest g1.lastDebounceTime > g1.debounceDelay then
    if reading = LOW then
      { ret := true, globals := { g1 with buttonState := reading }, trace := [] }
    else
      { ret := false, globals := g1, trace := [] }
  else
    { ret := false, globals := g1, trace := [] }

/-- Embedding of `sendMuteCommand` (lines 99-111). -/
def sendMuteCommand (g : Globals) : Step Unit :=
  let g1 : Globals := { g with muteLEDState := !g.muteLEDState }
  { ret := ()
    globals := g1
    trace :=
      [ Effect.keyboardPress Key.KEY_LEFT_CTRL,
        Effect.keyboardPress Key.KEY_LEFT_SHIFT,
        Effect.keyboardPress (Key.char 'm'),
        Effect.delay 100,
        Effect.keyboardReleaseAll,
        Effect.digitalWrite MUTE_LED g1.muteLEDState,
        Effect.delay 1000 ] }

/-- Embedding of `setup` (lines 117-131). `analog` is the value of
`analogRead(0)` and `rnd` the value of `random(20000,55000)` on line 130. -/
def setup (analog rnd : Nat) (g : Globals) : Step Unit :=
  { ret := ()
    globals := { g with randomMouseDelay := rnd }
    trace :=
      [ Effect.mouseBegin,
        Effect.keyboardBegin,
        Effect.pinMode ENABLE_SWITCH PinMode.INPUT_PULLUP,
        Effect.pinMode ENABLE_LED PinMode.OUTPUT,
        Effect.pinMode MUTE_BUTTON PinMode.INPUT_PULLUP,
        Effect.pinMode MUTE_LED PinMode.OUTPUT,
        Effect.digitalWrite ENABLE_LED LOW,
        Effect.digitalWrite MUTE_LED g.muteLEDState,
        Effect.randomSeed analog,
        Effect.random 20000 55000 ] }

/-- What the hardware returns during one pass of `loop`: the two pin levels,
the four `millis()` values in program order and the random draw. -/
structure CycleInput where
  enableSwitch : Level
  muteButton : Level
  moveTest : Nat
  moveStore : Nat
  muteStore : Nat
  muteTest : Nat
  rnd : Nat
  deriving DecidableEq, Repr

/-- Embedding of `loop` (lines 137-145): one polling cycle. -/
def loop (i : CycleInput) (g : Globals) : Step Unit :=
  let a := shouldMoveMouse i.enableSwitch i.moveTest i.moveStore i.rnd g
  let b : Step Unit :=
    if a.ret then moveMouse a.globals else { ret := (), globals := a.globals, trace := [] }
  let c := shouldMuteTeams i.muteButton i.muteStore i.muteTest b.globals
  let d : Step Unit :=
    if c.ret then sendMuteCommand c.globals else { ret := (), globals := c.globals, trace := [] }
  { ret := (), globals := d.globals, trace := a.trace ++ b.trace ++ c.trace ++ d.trace }

/-! ## Polling calls at one clock value

The specification describes each controller as a function of one time `now`:
the millisecond counter does not tick between the `millis()` calls inside one
call of the controller, so each of them returns `now`. -/

/-- The pin level of an input that is active-low: `LOW` when active. -/
def activeLow (active : Bool) : Level := if active then LOW else HIGH

/-- One call of `shouldMoveMouse` at clock value `now` with the enable input
`enabled` (switch pin `LOW`) and random draw `rnd`. -/
def pollIdleMotion (now : Nat) (enabled : Bool) (rnd : Nat) (g : Globals) : Step Bool :=
  shouldMoveMouse (activeLow enabled) now now rnd g

/-- One call of `shouldMuteTeams` at clock value `now` reading `rawLevel` from
the button pin. -/
def pollMuteTrigger (now : Nat) (rawLevel : Level) (g : Globals) : Step Bool :=
  shouldMuteTeams rawLevel now now g

/-- The levels written to `pin` in a trace, oldest first. -/
def pinWrites (pin : Nat) : List Effect → List Level
  | [] => []
  | Effect.digitalWrite p v :: es =>
      if p = pin then v :: pinWrites pin es else pinWrites pin es
  | _ :: es => pinWrites pin es

/-- The last level written to `pin` in a trace, if any. -/
def lastWrite (pin : Nat) (es : List Effect) : Option Level :=
  (pinWrites pin es).getLast?

/-- The pointer moves `(x, y, wheel)` in a trace, oldest first. -/
def mouseMoves : List Effect → List (Int × Int × Int)
  | [] => []
  | Effect.mouseMove x y w :: es => (x, y, w) :: mouseMoves es
  | _ :: es => mouseMoves es

/-- Component-wise sum of the pointer moves in a trace. -/
def netDisplacement (es : List Effect) : Int × Int × Int :=
  (mouseMoves es).foldl (fun acc m => (acc.1 + m.1, acc.2.1 + m.2.1, acc.2.2 + m.2.2)) (0, 0, 0)

/-- A run of mute-trigger polls, each a pair of clock value and raw level:
the return values in order, and the globals at the end. -/
def runMute (g : Globals) : List (Nat × Level) → List Bool × Globals
  | [] => ([], g)
  | p :: ps =>
      let s := pollMuteTrigger p.1 p.2 g
      let r := runMute s.globals ps
      (s.ret :: r.1, r.2)

/-- The raw level read by the last poll of a run, or `d` for the empty run:
the level the next poll is compared with when `d` is the `lastButtonState`
the run started from. -/
def lastLevel (d : Level) : List (Nat × Level) → Level
  | [] => d
  | p :: ps => lastLevel p.2 ps

/-- The globals after `n` successive calls of `sendMuteCommand`. -/
def emitMuteTimes : Nat → Globals → Globals
  | 0, g => g
  | n + 1, g => emitMuteTimes n (sendMuteCommand g).globals

/-- The trace of `n` successive calls of `moveMouse`. -/
def emitMotionTimes : Nat → Globals → List Effect
  | 0, _ => []
  | n + 1, g => (moveMouse g).trace ++ emitMotionTimes n (moveMouse g).globals

/-- Total of the `delay` arguments in a trace, in milliseconds. -/
def totalDelay : List Effect → Nat
  | [] => 0
  | Effect.delay ms :: es => ms + totalDelay es
  | _ :: es => totalDelay es

/-- The keys pressed in a trace, oldest first. -/
def keyPresses : List Effect → List Key
  | [] => []
  | Effect.keyboardPress k :: es => k :: keyPresses es
  | _ :: es => keyPresses es

/-- Number of calls of `random` in a trace. -/
def randomDraws : List Effect → Nat
  | [] => 0
  | Effect.random _ _ :: es => 1 + randomDraws es
  | _ :: es => randomDraws es

/-- A run of idle-motion polls, each a triple of clock value, enable input and
random draw: the return values in order, and the globals at the end. -/
def runIdle (g : Globals) : List (Nat × Bool × Nat) → List Bool × Globals
  | [] => ([], g)
  | p :: ps =>
      let s := pollIdleMotion p.1 p.2.1 p.2.2 g
      let r := runIdle s.globals ps
      (s.ret :: r.1, r.2)

/-- The outcomes of successive passes of `loop`, one per cycle input. -/
def runLoop (g : Globals) : List CycleInput → List (Step Unit)
  | [] => []
  | i :: is => loop i g :: runLoop (loop i g).globals is

/-- One call of a function of the sketch, with the hardware inputs it reads. -/
inductive Op where
  | setup (analog rnd : Nat)
  | shouldMoveMouse (sw : Level) (tTest tStore rnd : Nat)
  | moveMouse
  | shouldMuteTeams (reading : Level) (tStore tTest : Nat)
  | sendMuteCommand
  | loop (i : CycleInput)
  deriving DecidableEq, Repr

/-- The globals after one call. -/
def Op.apply : Op → Globals → Globals
  | Op.setup analog rnd, g => (NoSleep.setup analog rnd g).globals
  | Op.shouldMoveMouse sw tTest tStore rnd, g =>
      (NoSleep.shouldMoveMouse sw tTest tStore rnd g).globals
  | Op.moveMouse, g => (NoSleep.moveMouse g).globals
  | Op.shouldMuteTeams reading tStore tTest, g =>
      (NoSleep.shouldMuteTeams reading tStore tTest g).globals
  | Op.sendMuteCommand, g => (NoSleep.sendMuteCommand g).globals
  | Op.loop i, g => (NoSleep.loop i g).globals

/-- The globals after a sequence of calls, oldest first. -/
def runOps (g : Globals) : List Op → Globals
  | [] => g
  | op :: ops => runOps (op.apply g) ops

/-- The random draw a call may consume lies in `[20000, 55000)`, which is what
`random(20000,55000)` returns. -/
def Op.drawInRange : Op → Prop
  | Op.setup _ rnd => 20000 ≤ rnd ∧ rnd < 55000
  | Op.shouldMoveMouse _ _ _ rnd => 20000 ≤ rnd ∧ rnd < 55000
  | Op.loop i => 20000 ≤ i.rnd ∧ i.rnd < 55000
  | _ => True

instance (op : Op) : Decidable op.drawInRange := by
  cases op <;> simp only [Op.drawInRange] <;> infer_instance

/-! ## Auxiliary facts -/

theorem usub_self (a : Nat) : usub a a = 0 := by
  unfold usub ULONG_MOD
  omega

theorem usub_of_le (a b : Nat) (hab : b ≤ a) (ha : a < ULONG_MOD) : usub a b = a - b := by
  unfold usub
  unfold ULONG_MOD at *
  omega

theorem emitMuteTimes_led (n : Nat) (g : Globals) :
    (emitMuteTimes n g).muteLEDState = if n % 2 = 1 then !g.muteLEDState else g.muteLEDState := by
  induction n generalizing g with
  | zero => simp [emitMuteTimes]
  | succ k ih =>
    rw [emitMuteTimes, ih]
    rcases Nat.mod_two_eq_zero_or_one k with hk | hk
    · have hk1 : (k + 1) % 2 = 1 := by omega
      simp [hk, hk1, sendMuteCommand]
    · have hk1 : (k + 1) % 2 = 0 := by omega
      simp [hk, hk1, sendMuteCommand]

theorem emitMotionTimes_net (n : Nat) (g : Globals) :
    netDisplacement (emitMotionTimes n g) = (0, 0, 0) := by
  induction n generalizing g with
  | zero => simp [emitMotionTimes, netDisplacement, mouseMoves]
  | succ k ih =>
    have h := ih (moveMouse g).globals
    simp only [netDisplacement] at h
    simp [emitMotionTimes, netDisplacement, mouseMoves, moveMouse] at h ⊢
    exact h

theorem pollMuteTrigger_globals (now : Nat) (raw : Level) (g : Globals) :
    (pollMuteTrigger now raw g).globals.debounceDelay = g.debounceDelay ∧
    (pollMuteTrigger now raw g).globals.lastButtonState = raw ∧
    (raw = g.lastButtonState →
      (pollMuteTrigger now raw g).globals.lastDebounceTime = g.lastDebounceTime) ∧
    (raw ≠ g.lastButtonState → (pollMuteTrigger now raw g).globals.lastDebounceTime = now) := by
  unfold pollMuteTrigger shouldMuteTeams
  by_cases hedge : raw = g.lastButtonState
  · simp only [hedge, ne_eq, not_true_eq_false, if_false]
    split <;> try split
    all_goals simp
  · simp only [ne_eq, hedge, not_false_eq_true, if_true]
    split <;> try split
    all_goals simp

theorem pollMuteTrigger_ret (now : Nat) (raw : Level) (g : Globals) :
    (pollMuteTrigger now raw g).ret =
      decide (g.debounceDelay < usub now (pollMuteTrigger now raw g).globals.lastDebounceTime ∧
        raw = LOW) := by
  unfold pollMuteTrigger shouldMuteTeams
  by_cases hedge : raw = g.lastButtonState
  · simp only [hedge, ne_eq, not_true_eq_false, if_false]
    split <;> try split
    all_goals simp_all
  · simp only [ne_eq, hedge, not_false_eq_true, if_true]
    split <;> try split
    all_goals simp_all

theorem runMute_append (g : Globals) (ps qs : List (Nat × Level)) :
    runMute g (ps ++ qs) =
      ((runMute g ps).1 ++ (runMute (runMute g ps).2 qs).1, (runMute (runMute g ps).2 qs).2) := by
  induction ps generalizing g with
  | nil => simp [runMute]
  | cons p ps ih => simp [runMute, ih]

theorem lastLevel_append_singleton (d : Level) (ps : List (Nat × Level)) (p : Nat × Level) :
    lastLevel d (ps ++ [p]) = p.2 := by
  induction ps generalizing d with
  | nil => simp [lastLevel]
  | cons q ps ih => simpa [lastLevel] using ih q.2

theorem lastLevel_of_all (d : Level) (ps : List (Nat × Level)) (h : ∀ q ∈ ps, q.2 = d) :
    lastLevel d ps = d := by
  induction ps with
  | nil => simp [lastLevel]
  | cons q ps ih =>
    have hq : q.2 = d := h q (by simp)
    simp only [lastLevel, hq]
    exact ih (fun r hr => h r (by simp [hr]))

/-- Where a run of polls leaves the edge bookkeeping: either no poll read a
level different from its predecessor, or the run splits at the most recent poll
that did, whose clock value is then `lastDebounceTime`. -/
theorem runMute_last_edge (qs : List (Nat × Level)) (g : Globals) :
    (runMute g qs).2.debounceDelay = g.debounceDelay ∧
    (runMute g qs).2.lastButtonState = lastLevel g.lastButtonState qs ∧
    (((∀ q ∈ qs, q.2 = g.lastButtonState) ∧
        (runMute g qs).2.lastDebounceTime = g.lastDebounceTime) ∨
      (∃ a te le b, qs = a ++ (te, le) :: b ∧ le ≠ lastLevel g.lastButtonState a ∧
        (∀ q ∈ b, q.2 = le) ∧ (runMute g qs).2.lastDebounceTime = te)) := by
  induction qs generalizing g with
  | nil => simp [runMute, lastLevel]
  | cons p qs ih =>
    obtain ⟨hd, hl, hcase⟩ := ih (pollMuteTrigger p.1 p.2 g).globals
    obtain ⟨pd, pl, psame, pedge⟩ := pollMuteTrigger_globals p.1 p.2 g
    rw [pd] at hd
    rw [pl] at hl hcase
    refine ⟨by simpa [runMute] using hd, by simpa [runMute, lastLevel] using hl, ?_⟩
    rcases hcase with ⟨hall, htime⟩ | ⟨a, te, le, b, hsplit, hne, hb, htime⟩
    · by_cases hedge : p.2 = g.lastButtonState
      · left
        refine ⟨?_, ?_⟩
        · intro q hq
          rcases List.mem_cons.1 hq with rfl | hq
          · exact hedge
          · rw [hall q hq, hedge]
        · simpa [runMute, psame hedge] using htime
      · right
        refine ⟨[], p.1, p.2, qs, by simp, by simpa [lastLevel] using hedge, hall, ?_⟩
        simpa [runMute, pedge hedge] using htime
    · right
      refine ⟨p :: a, te, le, b, by simp [hsplit], by simpa [lastLevel] using hne, hb, ?_⟩
      simpa [runMute] using htime

/-- A run of polls that all read `LOW`, begun with `lastButtonState = LOW`:
each returns whether the window has elapsed since `lastDebounceTime`, and the
edge bookkeeping stays as it was. -/
theorem runMute_held (ts : List Nat) (g : Globals) (hraw : g.lastButtonState = LOW) :
    (runMute g (ts.map (fun t => (t, LOW)))).1 =
      ts.map (fun t => decide (g.debounceDelay < usub t g.lastDebounceTime)) ∧
    (runMute g (ts.map (fun t => (t, LOW)))).2.lastDebounceTime = g.lastDebounceTime ∧
    (runMute g (ts.map (fun t => (t, LOW)))).2.lastButtonState = g.lastButtonState ∧
    (runMute g (ts.map (fun t => (t, LOW)))).2.debounceDelay = g.debounceDelay := by
  induction ts generalizing g with
  | nil => simp [runMute]
  | cons t ts ih =>
    obtain ⟨pd, pl, psame, -⟩ := pollMuteTrigger_globals t LOW g
    have ptime := psame hraw.symm
    have pret := pollMuteTrigger_ret t LOW g
    obtain ⟨h1, h2, h3, h4⟩ := ih (pollMuteTrigger t LOW g).globals pl
    rw [ptime, pd] at h1
    rw [ptime] at h2 pret
    rw [pl] at h3
    rw [pd] at h4
    refine ⟨?_, ?_, ?_, ?_⟩
    · simp only [List.map_cons, runMute, h1, pret]
      simp
    · simpa [runMute] using h2
    · simpa [runMute, hraw] using h3
    · simpa [runMute] using h4

/-- A press followed by a held button: from `lastButtonState = HIGH`, a poll
that reads `LOW` at `t0` returns false and records the edge at `t0`; polls that
read `LOW` afterwards return whether the window has elapsed since `t0`. -/
theorem runMute_press_held (g : Globals) (t0 : Nat) (ts : List Nat)
    (hraw : g.lastButtonState = HIGH) :
    (runMute g ((t0, LOW) :: ts.map (fun t => (t, LOW)))).1 =
      false :: ts.map (fun t => decide (g.debounceDelay < usub t t0)) := by
  obtain ⟨pd, pl, -, pedge⟩ := pollMuteTrigger_globals t0 LOW g
  have htime := pedge (by simp [hraw])
  have hret := pollMuteTrigger_ret t0 LOW g
  rw [htime, usub_self] at hret
  have hheld := (runMute_held ts (pollMuteTrigger t0 LOW g).globals pl).1
  rw [pd, htime] at hheld
  simp only [runMute, hheld, hret]
  simp

/-- The enable LED after one call of `shouldMoveMouse`: the last level written
is `HIGH` exactly when the call returns true. -/
theorem shouldMoveMouse_led (sw : Level) (tTest tStore rnd : Nat) (g : Globals) :
    lastWrite ENABLE_LED (shouldMoveMouse sw tTest tStore rnd g).trace =
      some (shouldMoveMouse sw tTest tStore rnd g).ret := by
  unfold shouldMoveMouse
  split <;> try split
  all_goals simp [lastWrite, pinWrites]

/-! ## Idle-motion controller -/

/-- C1: with the enable input disabled (switch pin `HIGH`), `pollIdleMotion`
returns false and leaves `lastMoveTime`, `randomMouseDelay` and indeed every
global as it was, whatever `now` is. -/
theorem pollIdleMotion_disabled_frame (now rnd : Nat) (g : Globals) :
    (pollIdleMotion now false rnd g).ret = false ∧
    (pollIdleMotion now false rnd g).globals.lastMoveTime = g.lastMoveTime ∧
    (pollIdleMotion now false rnd g).globals.randomMouseDelay = g.randomMouseDelay ∧
    (pollIdleMotion now false rnd g).globals = g := by
  simp [pollIdleMotion, shouldMoveMouse, activeLow]

/-- C2: with the enable input enabled and `now - lastMoveTime > randomMouseDelay`,
`pollIdleMotion` returns true, sets `lastMoveTime` to `now` and replaces
`randomMouseDelay` by the random draw, which lies in `[20000, 55000)` when the
random source returns a value of that range. -/
theorem pollIdleMotion_elapsed (now rnd : Nat) (g : Globals)
    (hr : 20000 ≤ rnd ∧ rnd < 55000)
    (h : usub now g.lastMoveTime > g.randomMouseDelay) :
    (pollIdleMotion now true rnd g).ret = true ∧
    (pollIdleMotion now true rnd g).globals.lastMoveTime = now ∧
    (pollIdleMotion now true rnd g).globals.randomMouseDelay = rnd ∧
    20000 ≤ (pollIdleMotion now true rnd g).globals.randomMouseDelay ∧
    (pollIdleMotion now true rnd g).globals.randomMouseDelay < 55000 := by
  simp [pollIdleMotion, shouldMoveMouse, activeLow, h, hr.1, hr.2]

/-- Witness of C2: `lastMoveTime = 0`, `randomMouseDelay = 20000`, `now = 20001`
returns true. -/
theorem pollIdleMotion_elapsed_witness :
    (20000 ≤ 31337 ∧ 31337 < 55000) ∧
    usub 20001 ({ initGlobals with randomMouseDelay := 20000 } : Globals).lastMoveTime >
      ({ initGlobals with randomMouseDelay := 20000 } : Globals).randomMouseDelay ∧
    (pollIdleMotion 20001 true 31337 { initGlobals with randomMouseDelay := 20000 }).ret = true ∧
    (pollIdleMotion 20001 true 31337
      { initGlobals with randomMouseDelay := 20000 }).globals.lastMoveTime = 20001 ∧
    (pollIdleMotion 20001 true 31337
      { initGlobals with randomMouseDelay := 20000 }).globals.randomMouseDelay = 31337 ∧
    20000 ≤ (pollIdleMotion 20001 true 31337
      { initGlobals with randomMouseDelay := 20000 }).globals.randomMouseDelay ∧
    (pollIdleMotion 20001 true 31337
      { initGlobals with randomMouseDelay := 20000 }).globals.randomMouseDelay < 55000 :=
  ⟨by decide, by decide,
    pollIdleMotion_elapsed 20001 31337 { initGlobals with randomMouseDelay := 20000 }
      (by decide) (by decide)⟩

/-- C3 fails on the code: with the enable input enabled (switch pin `LOW`) at
`now = 100`, `lastMoveTime = 0` and `randomMouseDelay = 20000`, the call writes
`HIGH` and then `LOW` to the enable LED, so the last level written is off. -/
theorem enable_led_off_while_enabled :
    (pollIdleMotion 100 true 31337 { initGlobals with randomMouseDelay := 20000 }).ret = false ∧
    (pollIdleMotion 100 true 31337 { initGlobals with randomMouseDelay := 20000 }).trace =
      [Effect.digitalWrite ENABLE_LED HIGH, Effect.digitalWrite ENABLE_LED LOW] ∧
    lastWrite ENABLE_LED
      (pollIdleMotion 100 true 31337 { initGlobals with randomMouseDelay := 20000 }).trace =
      some LOW := by
  decide

/-! ## Mute-trigger controller -/

/-- C4: with `debounceDelay = 50`, `pollMuteTrigger` returns true exactly when,
after the edge-recording step, `now - lastDebounceTime > 50` and the raw level is
`LOW` (pressed); it returns false when the raw level is `HIGH`, when the window
has not elapsed, and on every poll that itself observes a level change. -/
theorem pollMuteTrigger_ret_iff (now : Nat) (raw : Level) (g : Globals)
    (h50 : g.debounceDelay = 50) :
    ((pollMuteTrigger now raw g).ret = true ↔
      (usub now (if raw ≠ g.lastButtonState then now else g.lastDebounceTime) > 50 ∧
        raw = LOW)) ∧
    (raw = HIGH → (pollMuteTrigger now raw g).ret = false) ∧
    (¬ usub now (if raw ≠ g.lastButtonState then now else g.lastDebounceTime) > 50 →
      (pollMuteTrigger now raw g).ret = false) ∧
    (raw ≠ g.lastButtonState → (pollMuteTrigger now raw g).ret = false) := by
  by_cases hedge : raw = g.lastButtonState
  · by_cases hlt : 50 < usub now g.lastDebounceTime <;>
      cases raw <;> simp [pollMuteTrigger, shouldMuteTeams, hedge.symm, h50, hlt]
  · cases raw <;> simp [pollMuteTrigger, shouldMuteTeams, hedge, h50, usub_self]

/-- Witness of C4: with the last edge at 1000 and `lastButtonState = LOW`, a
poll at 1051 that reads `LOW` returns true. -/
theorem pollMuteTrigger_ret_iff_witness :
    ({ initGlobals with lastButtonState := LOW, lastDebounceTime := 1000 } : Globals).debounceDelay
      = 50 ∧
    (pollMuteTrigger 1051 LOW
      { initGlobals with lastButtonState := LOW, lastDebounceTime := 1000 }).ret = true ∧
    ((pollMuteTrigger 1051 LOW
        { initGlobals with lastButtonState := LOW, lastDebounceTime := 1000 }).ret = true ↔
      (usub 1051 (if LOW ≠ LOW then 1051 else 1000) > 50 ∧ LOW = LOW)) :=
  ⟨rfl, by decide,
    (pollMuteTrigger_ret_iff 1051 LOW
      { initGlobals with lastButtonState := LOW, lastDebounceTime := 1000 } rfl).1⟩

/-- C5 (anti-bounce over whole runs): start with `lastButtonState = HIGH` and
`debounceDelay = 50`, make the polls `pre` and then a poll at time `t`, with
non-decreasing clock values below `2^32`. If the poll at `t` returns true, the
run up to it splits as `a ++ (te, LOW) :: b` where `(te, LOW)` is the most
recent poll that read a level different from its predecessor (the poll before
it read `HIGH`, every poll after it read `LOW`), that poll happened more than
50 ms before `t`, and every poll made up to and including the one at `t` whose
clock value lies in `[t - 50, t]` read `LOW`. -/
theorem mute_anti_bounce (g : Globals) (pre : List (Nat × Level)) (t : Nat) (l : Level)
    (hraw : g.lastButtonState = HIGH) (h50 : g.debounceDelay = 50)
    (hmono : (pre ++ [(t, l)]).Pairwise (fun p q => p.1 ≤ q.1))
    (hwrap : t < ULONG_MOD)
    (htrue : (pollMuteTrigger t l (runMute g pre).2).ret = true) :
    ∃ a te b, pre ++ [(t, l)] = a ++ (te, LOW) :: b ∧
      lastLevel HIGH a = HIGH ∧ (∀ q ∈ b, q.2 = LOW) ∧ te + 50 < t ∧
      ∀ q ∈ pre ++ [(t, l)], t ≤ q.1 + 50 → q.2 = LOW := by
  -- the state after the whole run is the state after the poll at `t`
  have hrun : (runMute g (pre ++ [(t, l)])).2 = (pollMuteTrigger t l (runMute g pre).2).globals := by
    simp [runMute_append, runMute]
  obtain ⟨hd, hl, hcase⟩ := runMute_last_edge (pre ++ [(t, l)]) g
  rw [hrun] at hd hl hcase
  have hret := pollMuteTrigger_ret t l (runMute g pre).2
  rw [htrue] at hret
  have hpd := (pollMuteTrigger_globals t l (runMute g pre).2).1
  have hdd : (runMute g pre).2.debounceDelay = 50 := by rw [← hpd, hd, h50]
  rw [hdd] at hret
  obtain ⟨hlt, hlow⟩ := of_decide_eq_true hret.symm
  -- every clock value of the run is at most `t`
  have hle : ∀ q ∈ pre ++ [(t, l)], q.1 ≤ t := by
    intro q hq
    rcases List.mem_append.1 hq with hq | hq
    · exact (List.pairwise_append.1 hmono).2.2 q hq (t, l) (by simp)
    · simp at hq
      simp [hq]
  rcases hcase with ⟨hall, -⟩ | ⟨a, te, le, b, hsplit, hne, hb, htime⟩
  · have := hall (t, l) (by simp)
    simp [hraw, hlow] at this
  · have hle_low : le = LOW := by
      have h1 : lastLevel g.lastButtonState (pre ++ [(t, l)]) = l :=
        lastLevel_append_singleton g.lastButtonState pre (t, l)
      have h2 : ∀ (d : Level) (xs : List (Nat × Level)),
          lastLevel d (xs ++ (te, le) :: b) = lastLevel le b := by
        intro d xs
        induction xs generalizing d with
        | nil => simp [lastLevel]
        | cons x xs ih => simpa [lastLevel] using ih x.2
      rw [hsplit, h2, lastLevel_of_all le b hb] at h1
      rw [h1, hlow]
    subst hle_low
    rw [htime] at hlt
    have hte : te ≤ t := hle (te, LOW) (by rw [hsplit]; simp)
    rw [usub_of_le t te hte hwrap] at hlt
    rw [hraw] at hne
    refine ⟨a, te, b, hsplit, ?_, hb, by omega, ?_⟩
    · cases h : lastLevel HIGH a
      · exact absurd h.symm hne
      · rfl
    · intro q hq hwin
      rw [hsplit] at hq hmono
      rcases List.mem_append.1 hq with hq | hq
      · have := (List.pairwise_append.1 hmono).2.2 q hq (te, LOW) (by simp)
        simp only at this
        omega
      · rcases List.mem_cons.1 hq with rfl | hq
        · rfl
        · exact hb q hq

/-- Witness of C5: `LOW` at 0, `HIGH` at 10, `LOW` at 20, then `LOW` at 70 and
at 71; no poll up to 70 returns true, the poll at 71 does, and the theorem
applies to it. -/
theorem mute_anti_bounce_witness :
    (runMute initGlobals [(0, LOW), (10, HIGH), (20, LOW), (70, LOW), (71, LOW)]).1 =
      [false, false, false, false, true] ∧
    initGlobals.lastButtonState = HIGH ∧ initGlobals.debounceDelay = 50 ∧
    List.Pairwise (fun (p q : Nat × Level) => p.1 ≤ q.1)
      ([(0, LOW), (10, HIGH), (20, LOW), (70, LOW)] ++ [(71, LOW)]) ∧
    71 < ULONG_MOD ∧
    (pollMuteTrigger 71 LOW
      (runMute initGlobals [(0, LOW), (10, HIGH), (20, LOW), (70, LOW)]).2).ret = true ∧
    ∃ a te b, [(0, LOW), (10, HIGH), (20, LOW), (70, LOW)] ++ [(71, LOW)] = a ++ (te, LOW) :: b ∧
      lastLevel HIGH a = HIGH ∧ (∀ q ∈ b, q.2 = LOW) ∧ te + 50 < 71 ∧
      ∀ q ∈ [(0, LOW), (10, HIGH), (20, LOW), (70, LOW)] ++ [(71, LOW)],
        71 ≤ q.1 + 50 → q.2 = LOW :=
  ⟨by decide, rfl, rfl, by decide, by decide, by decide,
    mute_anti_bounce initGlobals [(0, LOW), (10, HIGH), (20, LOW), (70, LOW)] 71 LOW rfl rfl
      (by decide) (by decide) (by decide)⟩

/-- C6 (clean press threshold): from a state with `lastButtonState = HIGH` and
`debounceDelay = 50`, let the button be read `LOW` at `t0` and `LOW` again at
every later poll, at clock values `ts` with `t0 ≤ t < 2^32`. The poll at `t0`
returns false and each later poll at `t` returns true exactly when
`t - t0 > 50`. -/
theorem clean_press_threshold (g : Globals) (t0 : Nat) (ts : List Nat)
    (hraw : g.lastButtonState = HIGH) (h50 : g.debounceDelay = 50)
    (hts : ∀ t ∈ ts, t0 ≤ t ∧ t < ULONG_MOD) :
    (runMute g ((t0, LOW) :: ts.map (fun t => (t, LOW)))).1 =
      false :: ts.map (fun t => decide (t - t0 > 50)) := by
  rw [runMute_press_held g t0 ts hraw, h50]
  simp only [List.cons.injEq, true_and]
  apply List.map_congr_left
  intro t ht
  rw [usub_of_le t t0 (hts t ht).1 (hts t ht).2]

/-- Witness of C6: `t0 = 1000`; the poll at 1049 returns false and the poll at
1051 returns true. -/
theorem clean_press_threshold_witness :
    initGlobals.lastButtonState = HIGH ∧ initGlobals.debounceDelay = 50 ∧
    (∀ t ∈ [1049, 1051], 1000 ≤ t ∧ t < ULONG_MOD) ∧
    (runMute initGlobals ((1000, LOW) :: [1049, 1051].map (fun t => (t, LOW)))).1 =
      [false, false, true] :=
  ⟨rfl, rfl, by decide,
    clean_press_threshold initGlobals 1000 [1049, 1051] rfl rfl (by decide)⟩

/-- C7 fails as stated: after `LOW` at 1000, `HIGH` at 1010 and `LOW` at 1015,
a poll at 1065 that reads `LOW` returns false, because `1065 - 1015 = 50` is
not greater than `debounceDelay`. -/
theorem bounce_poll_at_1065_false :
    (runMute initGlobals [(1000, LOW), (1010, HIGH), (1015, LOW), (1065, LOW)]).1 =
      [false, false, false, false] ∧
    (pollMuteTrigger 1065 LOW
      (runMute initGlobals [(1000, LOW), (1010, HIGH), (1015, LOW)]).2).ret ≠ true := by
  decide

/-- C7 as amended (bounce scenario): from a state with `lastButtonState = HIGH`
and `debounceDelay = 50`, after `LOW` at 1000, `HIGH` at 1010 and `LOW` at 1015,
with the level `LOW` at every later poll (clock values `ts` with
`1015 ≤ t < 2^32`), the three bouncing polls return false and a later poll at
`t` returns true exactly when `t > 1065`: the earliest true return is at 1066. -/
theorem bounce_earliest_true (g : Globals) (ts : List Nat)
    (hraw : g.lastButtonState = HIGH) (h50 : g.debounceDelay = 50)
    (hts : ∀ t ∈ ts, 1015 ≤ t ∧ t < ULONG_MOD) :
    (runMute g ((1000, LOW) :: (1010, HIGH) :: (1015, LOW) :: ts.map (fun t => (t, LOW)))).1 =
      false :: false :: false :: ts.map (fun t => decide (t > 1065)) := by
  -- the first two polls are edges and return false
  obtain ⟨pd1, pl1, -, pe1⟩ := pollMuteTrigger_globals 1000 LOW g
  have hr1 := pollMuteTrigger_ret 1000 LOW g
  rw [pe1 (by simp [hraw]), usub_self] at hr1
  obtain ⟨pd2, pl2, -, pe2⟩ := pollMuteTrigger_globals 1010 HIGH (pollMuteTrigger 1000 LOW g).globals
  have hr2 := pollMuteTrigger_ret 1010 HIGH (pollMuteTrigger 1000 LOW g).globals
  rw [pe2 (by simp [pl1]), usub_self] at hr2
  -- from the third poll on the button is held
  have hthird := runMute_press_held
    (pollMuteTrigger 1010 HIGH (pollMuteTrigger 1000 LOW g).globals).globals 1015 ts pl2
  rw [pd2, pd1, h50] at hthird
  simp only [runMute] at hthird ⊢
  rw [hthird, hr1, hr2]
  simp only [Nat.not_lt_zero, false_and, decide_False, List.cons.injEq, true_and]
  apply List.map_congr_left
  intro t ht
  have h1 := hts t ht
  rw [usub_of_le t 1015 h1.1 h1.2]
  simp only [decide_eq_decide]
  omega

/-- Witness of C7 as amended: polls at 1050 and 1065 return false, the poll at
1066 returns true. -/
theorem bounce_earliest_true_witness :
    initGlobals.lastButtonState = HIGH ∧ initGlobals.debounceDelay = 50 ∧
    (∀ t ∈ [1050, 1065, 1066], 1015 ≤ t ∧ t < ULONG_MOD) ∧
    (runMute initGlobals ((1000, LOW) :: (1010, HIGH) :: (1015, LOW) ::
      [1050, 1065, 1066].map (fun t => (t, LOW)))).1 =
      [false, false, false, false, false, true] :=
  ⟨rfl, rfl, by decide,
    bounce_earliest_true initGlobals [1050, 1065, 1066] rfl rfl (by decide)⟩

/-- C8 (level-triggered, not single-shot): from a state with
`lastButtonState = LOW` and `debounceDelay = 50`, any number of successive polls
that read `LOW` at clock values `t` with `t - lastDebounceTime > 50` all return
true, and after each of them (the first `k`, for every `k`) `lastDebounceTime`
and `lastButtonState` are as they were at the start. -/
theorem held_button_retriggers (g : Globals) (ts : List Nat)
    (hraw : g.lastButtonState = LOW) (h50 : g.debounceDelay = 50)
    (hts : ∀ t ∈ ts, usub t g.lastDebounceTime > 50) :
    (runMute g (ts.map (fun t => (t, LOW)))).1 = List.replicate ts.length true ∧
    ∀ k : Nat,
      (runMute g ((ts.take k).map (fun t => (t, LOW)))).2.lastDebounceTime =
        g.lastDebounceTime ∧
      (runMute g ((ts.take k).map (fun t => (t, LOW)))).2.lastButtonState =
        g.lastButtonState := by
  refine ⟨?_, fun k => ?_⟩
  · rw [(runMute_held ts g hraw).1, h50, List.eq_replicate_iff]
    refine ⟨by simp, ?_⟩
    intro b hb
    obtain ⟨t, ht, rfl⟩ := List.mem_map.1 hb
    exact decide_eq_true (hts t ht)
  · obtain ⟨-, h2, h3, -⟩ := runMute_held (ts.take k) g hraw
    exact ⟨h2, h3⟩

/-- Witness of C8: with the last edge at 1000, polls at 1051, 1052 and 1060 that
read `LOW` all return true. -/
theorem held_button_retriggers_witness :
    ({ initGlobals with lastButtonState := LOW, lastDebounceTime := 1000 } : Globals).lastButtonState
      = LOW ∧
    ({ initGlobals with lastButtonState := LOW, lastDebounceTime := 1000 } : Globals).debounceDelay
      = 50 ∧
    (∀ t ∈ [1051, 1052, 1060], usub t 1000 > 50) ∧
    (runMute { initGlobals with lastButtonState := LOW, lastDebounceTime := 1000 }
      ([1051, 1052, 1060].map (fun t => (t, LOW)))).1 = List.replicate 3 true :=
  ⟨rfl, rfl, by decide,
    (held_button_retriggers { initGlobals with lastButtonState := LOW, lastDebounceTime := 1000 }
      [1051, 1052, 1060] rfl rfl (by decide)).1⟩

/-! ## Emissions -/

/-- C9: one `sendMuteCommand` flips `muteLEDState` once and writes that new
value, once, to the mute LED; two successive emissions restore the indicator,
and after `n` emissions from the initial (off) state it is on iff `n` is odd. -/
theorem sendMuteCommand_toggles (g : Globals) :
    (sendMuteCommand g).globals = { g with muteLEDState := !g.muteLEDState } ∧
    pinWrites MUTE_LED (sendMuteCommand g).trace = [!g.muteLEDState] ∧
    (sendMuteCommand (sendMuteCommand g).globals).globals.muteLEDState = g.muteLEDState ∧
    (∀ n : Nat, (emitMuteTimes n initGlobals).muteLEDState = true ↔ n % 2 = 1) := by
  refine ⟨rfl, ?_, ?_, ?_⟩
  · simp [sendMuteCommand, pinWrites]
  · simp [sendMuteCommand]
  · intro n
    rw [emitMuteTimes_led]
    by_cases hn : n % 2 = 1 <;> simp [hn, initGlobals]

/-- C10: `moveMouse` emits exactly the pointer moves `(+1, 0)` and `(-1, 0)`,
both with wheel 0, whose component-wise sum is zero; the net displacement of
any number of emissions is zero. -/
theorem moveMouse_net_zero (g : Globals) :
    (moveMouse g).trace = [Effect.mouseMove 1 0 0, Effect.mouseMove (-1) 0 0] ∧
    netDisplacement (moveMouse g).trace = (0, 0, 0) ∧
    (∀ n : Nat, netDisplacement (emitMotionTimes n g) = (0, 0, 0)) := by
  refine ⟨rfl, ?_, fun n => emitMotionTimes_net n g⟩
  simp [moveMouse, netDisplacement, mouseMoves]

/-- C11: the effects of one `sendMuteCommand` are, in order: press left-Ctrl,
press left-Shift, press `m`, wait 100 ms, release all keys, write the toggled
level to the mute LED, wait 1000 ms. Three keys are pressed before the single
release-all, the LED is written after it, and the waits add up to 1100 ms. -/
theorem sendMuteCommand_trace (g : Globals) :
    (sendMuteCommand g).trace =
      [ Effect.keyboardPress Key.KEY_LEFT_CTRL,
        Effect.keyboardPress Key.KEY_LEFT_SHIFT,
        Effect.keyboardPress (Key.char 'm'),
        Effect.delay 100,
        Effect.keyboardReleaseAll,
        Effect.digitalWrite MUTE_LED (!g.muteLEDState),
        Effect.delay 1000 ] ∧
    keyPresses (sendMuteCommand g).trace =
      [Key.KEY_LEFT_CTRL, Key.KEY_LEFT_SHIFT, Key.char 'm'] ∧
    List.count Effect.keyboardReleaseAll (sendMuteCommand g).trace = 1 ∧
    totalDelay (sendMuteCommand g).trace = 1100 := by
  refine ⟨rfl, ?_, ?_, ?_⟩
  · simp [sendMuteCommand, keyPresses]
  · simp [sendMuteCommand]
  · simp [sendMuteCommand, totalDelay]

/-! ## Single polls: frame and edge recording -/

/-- C15: with the enable input enabled but `now - lastMoveTime ≤ randomMouseDelay`,
`pollIdleMotion` returns false, calls `random` not at all (its outcome is the
same for every value the generator would have returned) and leaves every
global, `lastMoveTime` and `randomMouseDelay` among them, unchanged. On any
poll that returns false, enabled or not, the globals are unchanged and
`random` is not called: the delay is re-rolled only on a poll that returns
true. -/
theorem pollIdleMotion_waiting (now rnd : Nat) (g : Globals)
    (h : usub now g.lastMoveTime ≤ g.randomMouseDelay) :
    (pollIdleMotion now true rnd g).ret = false ∧
    (pollIdleMotion now true rnd g).globals.lastMoveTime = g.lastMoveTime ∧
    (pollIdleMotion now true rnd g).globals.randomMouseDelay = g.randomMouseDelay ∧
    (pollIdleMotion now true rnd g).globals = g ∧
    randomDraws (pollIdleMotion now true rnd g).trace = 0 ∧
    (∀ r : Nat, pollIdleMotion now true r g = pollIdleMotion now true rnd g) ∧
    (∀ (t : Nat) (en : Bool) (r : Nat) (s : Globals),
      (pollIdleMotion t en r s).ret = false →
        (pollIdleMotion t en r s).globals = s ∧
        randomDraws (pollIdleMotion t en r s).trace = 0) := by
  have hn : ¬ g.randomMouseDelay < usub now g.lastMoveTime := Nat.not_lt.2 h
  refine ⟨?_, ?_, ?_, ?_, ?_, ?_, ?_⟩
  · simp [pollIdleMotion, shouldMoveMouse, activeLow, hn]
  · simp [pollIdleMotion, shouldMoveMouse, activeLow, hn]
  · simp [pollIdleMotion, shouldMoveMouse, activeLow, hn]
  · simp [pollIdleMotion, shouldMoveMouse, activeLow, hn]
  · simp [pollIdleMotion, shouldMoveMouse, activeLow, hn, randomDraws]
  · intro r
    simp [pollIdleMotion, shouldMoveMouse, activeLow, hn]
  · intro t en r s
    unfold pollIdleMotion shouldMoveMouse
    split <;> try split
    all_goals simp [randomDraws]

/-- Witness of C15: enabled at `now = 100` with `lastMoveTime = 0` and
`randomMouseDelay = 20000`. -/
theorem pollIdleMotion_waiting_witness :
    usub 100 ({ initGlobals with randomMouseDelay := 20000 } : Globals).lastMoveTime ≤
      ({ initGlobals with randomMouseDelay := 20000 } : Globals).randomMouseDelay ∧
    (pollIdleMotion 100 true 31337 { initGlobals with randomMouseDelay := 20000 }).ret = false ∧
    (pollIdleMotion 100 true 31337 { initGlobals with randomMouseDelay := 20000 }).globals =
      { initGlobals with randomMouseDelay := 20000 } :=
  ⟨by decide,
    (pollIdleMotion_waiting 100 31337 { initGlobals with randomMouseDelay := 20000 }
      (by decide)).1,
    (pollIdleMotion_waiting 100 31337 { initGlobals with randomMouseDelay := 20000 }
      (by decide)).2.2.2.1⟩

/-- C16 (edge recording): if the raw level differs from `lastButtonState`, the
call leaves `lastDebounceTime = now` and `lastButtonState` equal to the raw
level; if it equals `lastButtonState`, both are unchanged. After every call
`lastButtonState` is the level just read and `debounceDelay` is what it was,
so still 50 when it was 50. -/
theorem pollMuteTrigger_edge_recording (now : Nat) (raw : Level) (g : Globals) :
    (raw ≠ g.lastButtonState →
      (pollMuteTrigger now raw g).globals.lastDebounceTime = now ∧
      (pollMuteTrigger now raw g).globals.lastButtonState = raw) ∧
    (raw = g.lastButtonState →
      (pollMuteTrigger now raw g).globals.lastDebounceTime = g.lastDebounceTime ∧
      (pollMuteTrigger now raw g).globals.lastButtonState = g.lastButtonState) ∧
    (pollMuteTrigger now raw g).globals.lastButtonState = raw ∧
    (pollMuteTrigger now raw g).globals.debounceDelay = g.debounceDelay ∧
    (g.debounceDelay = 50 → (pollMuteTrigger now raw g).globals.debounceDelay = 50) := by
  obtain ⟨pd, pl, psame, pedge⟩ := pollMuteTrigger_globals now raw g
  refine ⟨fun hne => ⟨pedge hne, pl⟩, fun heq => ⟨psame heq, ?_⟩, pl, pd, fun h50 => ?_⟩
  · rw [pl, heq]
  · rw [pd, h50]

/-- Witness of C16: from the initial globals, a poll at 1000 that reads `LOW`
records the edge, and a poll at 1000 that reads `HIGH` records nothing. -/
theorem pollMuteTrigger_edge_recording_witness :
    LOW ≠ initGlobals.lastButtonState ∧ HIGH = initGlobals.lastButtonState ∧
    initGlobals.debounceDelay = 50 ∧
    ((pollMuteTrigger 1000 LOW initGlobals).globals.lastDebounceTime = 1000 ∧
      (pollMuteTrigger 1000 LOW initGlobals).globals.lastButtonState = LOW) ∧
    ((pollMuteTrigger 1000 HIGH initGlobals).globals.lastDebounceTime = 0 ∧
      (pollMuteTrigger 1000 HIGH initGlobals).globals.lastButtonState = HIGH) ∧
    (pollMuteTrigger 1000 LOW initGlobals).globals.debounceDelay = 50 :=
  ⟨by decide, by decide, rfl,
    (pollMuteTrigger_edge_recording 1000 LOW initGlobals).1 (by decide),
    (pollMuteTrigger_edge_recording 1000 HIGH initGlobals).2.1 (by decide),
    (pollMuteTrigger_edge_recording 1000 LOW initGlobals).2.2.2.2 rfl⟩

/-- C17 fails as stated: from the initial globals, a poll at 100 that reads
`HIGH` sees a level that has been stable for more than 50 ms (no edge, elapsed
time 100), yet `buttonState` is still `LOW` afterwards, not the stable level. -/
theorem buttonState_stale_when_released :
    HIGH = initGlobals.lastButtonState ∧
    usub 100 (pollMuteTrigger 100 HIGH initGlobals).globals.lastDebounceTime >
      (pollMuteTrigger 100 HIGH initGlobals).globals.debounceDelay ∧
    (pollMuteTrigger 100 HIGH initGlobals).globals.buttonState = LOW ∧
    (pollMuteTrigger 100 HIGH initGlobals).globals.buttonState ≠ HIGH := by
  decide

/-- C17 as amended: `buttonState` is assigned only when a stable pressed level
is seen. With `debounceDelay = 50`, after a `pollMuteTrigger` call at which the
raw level has been stable for more than 50 ms (`now - lastDebounceTime > 50`),
`buttonState` equals the raw level when that level is `LOW` (pressed); when the
stable level is `HIGH`, and on every call at which the window has not elapsed,
`buttonState` is what it was before the call. -/
theorem buttonState_after_stable_poll (now : Nat) (raw : Level) (g : Globals)
    (h50 : g.debounceDelay = 50) :
    (usub now (pollMuteTrigger now raw g).globals.lastDebounceTime > 50 → raw = LOW →
      (pollMuteTrigger now raw g).globals.buttonState = raw) ∧
    (usub now (pollMuteTrigger now raw g).globals.lastDebounceTime > 50 → raw = HIGH →
      (pollMuteTrigger now raw g).globals.buttonState = g.buttonState) ∧
    (¬ usub now (pollMuteTrigger now raw g).globals.lastDebounceTime > 50 →
      (pollMuteTrigger now raw g).globals.buttonState = g.buttonState) ∧
    (pollMuteTrigger now raw g).globals.buttonState =
      (if usub now (pollMuteTrigger now raw g).globals.lastDebounceTime > 50 ∧ raw = LOW
        then raw else g.buttonState) := by
  by_cases hedge : raw = g.lastButtonState
  · have hld := (pollMuteTrigger_globals now raw g).2.2.1 hedge
    rw [hld]
    by_cases hlt : 50 < usub now g.lastDebounceTime <;>
      cases raw <;> simp [pollMuteTrigger, shouldMuteTeams, hedge.symm, h50, hlt]
  · have hld := (pollMuteTrigger_globals now raw g).2.2.2 hedge
    rw [hld, usub_self]
    cases raw <;> simp [pollMuteTrigger, shouldMuteTeams, hedge, h50, usub_self]

/-- Witness of C17 as amended, from `buttonState = HIGH`, `lastButtonState = LOW`
and the last edge at 1000: a poll at 1051 that reads `LOW` leaves
`buttonState = LOW`; a poll at 1050 that reads `LOW`, inside the window, and a
poll at 1051 that reads `HIGH`, an edge, leave `buttonState = HIGH`. -/
theorem buttonState_after_stable_poll_witness :
    ({ initGlobals with
        buttonState := HIGH, lastButtonState := LOW, lastDebounceTime := 1000 } :
      Globals).debounceDelay = 50 ∧
    usub 1051 (pollMuteTrigger 1051 LOW { initGlobals with
        buttonState := HIGH, lastButtonState := LOW, lastDebounceTime := 1000
      }).globals.lastDebounceTime > 50 ∧
    (pollMuteTrigger 1051 LOW { initGlobals with
        buttonState := HIGH, lastButtonState := LOW, lastDebounceTime := 1000
      }).globals.buttonState = LOW ∧
    ¬ usub 1050 (pollMuteTrigger 1050 LOW { initGlobals with
        buttonState := HIGH, lastButtonState := LOW, lastDebounceTime := 1000
      }).globals.lastDebounceTime > 50 ∧
    (pollMuteTrigger 1050 LOW { initGlobals with
        buttonState := HIGH, lastButtonState := LOW, lastDebounceTime := 1000
      }).globals.buttonState = HIGH ∧
    (pollMuteTrigger 1051 HIGH { initGlobals with
        buttonState := HIGH, lastButtonState := LOW, lastDebounceTime := 1000
      }).globals.buttonState = HIGH :=
  ⟨rfl, by decide,
    (buttonState_after_stable_poll 1051 LOW
      { initGlobals with buttonState := HIGH, lastButtonState := LOW, lastDebounceTime := 1000 }
      rfl).1 (by decide) rfl,
    by decide,
    (buttonState_after_stable_poll 1050 LOW
      { initGlobals with buttonState := HIGH, lastButtonState := LOW, lastDebounceTime := 1000 }
      rfl).2.2.1 (by decide),
    (buttonState_after_stable_poll 1051 HIGH
      { initGlobals with buttonState := HIGH, lastButtonState := LOW, lastDebounceTime := 1000 }
      rfl).2.2.1 (by decide)⟩

/-! ## Clock wraparound -/

/-- C18: elapsed time is computed modulo `2^32`, so with a true elapsed time
`e < 2^32` and `now = (last + e) mod 2^32` the subtraction gives back `e` for
every `last`. Hence the idle-motion test of an enabled poll equals
`e > randomMouseDelay`, and with `debounceDelay = 50` the mute poll returns true
exactly when `e > 50` and the level is `LOW`, where `last` is `lastMoveTime`,
respectively `lastDebounceTime` after the edge-recording step. -/
theorem elapsed_time_wraps (e : Nat) (he : e < ULONG_MOD) :
    (∀ last : Nat, usub ((last + e) % ULONG_MOD) last = e) ∧
    (∀ (g : Globals) (rnd : Nat),
      (pollIdleMotion ((g.lastMoveTime + e) % ULONG_MOD) true rnd g).ret =
        decide (e > g.randomMouseDelay)) ∧
    (∀ (g : Globals) (raw : Level) (now : Nat), g.debounceDelay = 50 →
      now = ((pollMuteTrigger now raw g).globals.lastDebounceTime + e) % ULONG_MOD →
      (pollMuteTrigger now raw g).ret = decide (e > 50 ∧ raw = LOW)) := by
  have hsub : ∀ last : Nat, usub ((last + e) % ULONG_MOD) last = e := by
    intro last
    unfold usub
    unfold ULONG_MOD at *
    omega
  refine ⟨hsub, ?_, ?_⟩
  · intro g rnd
    unfold pollIdleMotion shouldMoveMouse
    rw [hsub]
    by_cases h : g.randomMouseDelay < e <;> simp [activeLow, h]
  · intro g raw now h50 hnow
    have key := hsub (pollMuteTrigger now raw g).globals.lastDebounceTime
    rw [← hnow] at key
    rw [pollMuteTrigger_ret, key, h50]

/-- Witness of C18: the counter wraps between `last = 2^32 - 10` and `now = 50`,
a true elapsed time of 60 ms; the held button is reported. -/
theorem elapsed_time_wraps_witness :
    60 < ULONG_MOD ∧
    usub ((4294967286 + 60) % ULONG_MOD) 4294967286 = 60 ∧
    (4294967286 + 60) % ULONG_MOD = 50 ∧
    (pollMuteTrigger 50 LOW
      { initGlobals with lastButtonState := LOW, lastDebounceTime := 4294967286 }).ret = true :=
  ⟨by decide, (elapsed_time_wraps 60 (by decide)).1 4294967286, by decide, by decide⟩

/-! ## The polling cycle and whole runs -/

/-- A property of the globals kept by the two controllers and by the mute
emission is kept by a pass of `loop`. -/
theorem loop_preserves (P : Globals → Prop) (i : CycleInput) (g : Globals)
    (hmove : ∀ s, P s → P (shouldMoveMouse i.enableSwitch i.moveTest i.moveStore i.rnd s).globals)
    (hmute : ∀ s, P s → P (shouldMuteTeams i.muteButton i.muteStore i.muteTest s).globals)
    (hsend : ∀ s, P s → P (sendMuteCommand s).globals) (hg : P g) :
    P (loop i g).globals := by
  have ha := hmove g hg
  have hb : (if (shouldMoveMouse i.enableSwitch i.moveTest i.moveStore i.rnd g).ret = true
      then moveMouse (shouldMoveMouse i.enableSwitch i.moveTest i.moveStore i.rnd g).globals
      else { ret := (), trace := [],
             globals := (shouldMoveMouse i.enableSwitch i.moveTest i.moveStore i.rnd g).globals
           }).globals
      = (shouldMoveMouse i.enableSwitch i.moveTest i.moveStore i.rnd g).globals := by
    split <;> rfl
  unfold loop
  simp only
  rw [hb]
  by_cases hc : (shouldMuteTeams i.muteButton i.muteStore i.muteTest
      (shouldMoveMouse i.enableSwitch i.moveTest i.moveStore i.rnd g).globals).ret = true
  · rw [if_pos hc]
    exact hsend _ (hmute _ ha)
  · rw [if_neg hc]
    exact hmute _ ha

theorem shouldMoveMouse_frame (sw : Level) (tTest tStore rnd : Nat) (g : Globals) :
    (shouldMoveMouse sw tTest tStore rnd g).globals.buttonState = g.buttonState ∧
    ((shouldMoveMouse sw tTest tStore rnd g).globals.randomMouseDelay = g.randomMouseDelay ∨
      (shouldMoveMouse sw tTest tStore rnd g).globals.randomMouseDelay = rnd) := by
  unfold shouldMoveMouse
  split <;> try split
  all_goals simp

theorem shouldMuteTeams_frame (reading : Level) (tStore tTest : Nat) (g : Globals) :
    (shouldMuteTeams reading tStore tTest g).globals.randomMouseDelay = g.randomMouseDelay ∧
    ((shouldMuteTeams reading tStore tTest g).globals.buttonState = g.buttonState ∨
      (shouldMuteTeams reading tStore tTest g).globals.buttonState = LOW) := by
  unfold shouldMuteTeams
  by_cases hedge : reading = g.lastButtonState
  · simp only [hedge, ne_eq, not_true_eq_false, if_false]
    split <;> try split
    all_goals simp_all
  · simp only [ne_eq, hedge, not_false_eq_true, if_true]
    split <;> try split
    all_goals simp_all

/-- One call keeps `randomMouseDelay` in `[20000, 55000)` when the draw it may
consume is in that range. -/
theorem Op.apply_delay (op : Op) (g : Globals) (hop : op.drawInRange)
    (hg : 20000 ≤ g.randomMouseDelay ∧ g.randomMouseDelay < 55000) :
    20000 ≤ (op.apply g).randomMouseDelay ∧ (op.apply g).randomMouseDelay < 55000 := by
  have hmove : ∀ (sw : Level) (a b r : Nat) (s : Globals), (20000 ≤ r ∧ r < 55000) →
      (20000 ≤ s.randomMouseDelay ∧ s.randomMouseDelay < 55000) →
      20000 ≤ (NoSleep.shouldMoveMouse sw a b r s).globals.randomMouseDelay ∧
        (NoSleep.shouldMoveMouse sw a b r s).globals.randomMouseDelay < 55000 := by
    intro sw a b r s hr hs
    rcases (shouldMoveMouse_frame sw a b r s).2 with h | h <;> rw [h] <;> assumption
  have hmute : ∀ (l : Level) (a b : Nat) (s : Globals),
      (20000 ≤ s.randomMouseDelay ∧ s.randomMouseDelay < 55000) →
      20000 ≤ (NoSleep.shouldMuteTeams l a b s).globals.randomMouseDelay ∧
        (NoSleep.shouldMuteTeams l a b s).globals.randomMouseDelay < 55000 := by
    intro l a b s hs
    rw [(shouldMuteTeams_frame l a b s).1]
    exact hs
  cases op with
  | setup analog rnd => exact hop
  | shouldMoveMouse sw a b r => exact hmove sw a b r g hop hg
  | moveMouse => exact hg
  | shouldMuteTeams l a b => exact hmute l a b g hg
  | sendMuteCommand => exact hg
  | loop i =>
    exact loop_preserves (fun s => 20000 ≤ s.randomMouseDelay ∧ s.randomMouseDelay < 55000) i g
      (fun s hs => hmove _ _ _ _ s hop hs) (fun s hs => hmute _ _ _ s hs) (fun s hs => hs) hg

/-- One call keeps `buttonState = LOW`. -/
theorem Op.apply_buttonState (op : Op) (g : Globals) (hg : g.buttonState = LOW) :
    (op.apply g).buttonState = LOW := by
  have hmove : ∀ (sw : Level) (a b r : Nat) (s : Globals), s.buttonState = LOW →
      (NoSleep.shouldMoveMouse sw a b r s).globals.buttonState = LOW := by
    intro sw a b r s hs
    rw [(shouldMoveMouse_frame sw a b r s).1, hs]
  have hmute : ∀ (l : Level) (a b : Nat) (s : Globals), s.buttonState = LOW →
      (NoSleep.shouldMuteTeams l a b s).globals.buttonState = LOW := by
    intro l a b s hs
    rcases (shouldMuteTeams_frame l a b s).2 with h | h
    · rw [h, hs]
    · exact h
  cases op with
  | setup analog rnd => exact hg
  | shouldMoveMouse sw a b r => exact hmove sw a b r g hg
  | moveMouse => exact hg
  | shouldMuteTeams l a b => exact hmute l a b g hg
  | sendMuteCommand => exact hg
  | loop i =>
    exact loop_preserves (fun s => s.buttonState = LOW) i g
      (fun s hs => hmove _ _ _ _ s hs) (fun s hs => hmute _ _ _ s hs) (fun s hs => hs) hg

/-- C13 (invariant of the idle-motion controller): once `setup` has run with a
draw in `[20000, 55000)`, after any sequence of calls of `shouldMoveMouse`,
`shouldMuteTeams`, `moveMouse`, `sendMuteCommand`, whole passes of `loop` and
further `setup` calls, with arbitrary pin levels and clock values and every
draw in `[20000, 55000)`, `randomMouseDelay` is in `[20000, 55000)`. -/
theorem delay_invariant (g0 : Globals) (analog rnd : Nat) (ops : List Op)
    (hr : 20000 ≤ rnd ∧ rnd < 55000) (hops : ∀ op ∈ ops, op.drawInRange) :
    20000 ≤ (runOps (setup analog rnd g0).globals ops).randomMouseDelay ∧
    (runOps (setup analog rnd g0).globals ops).randomMouseDelay < 55000 := by
  have hgen : ∀ (l : List Op) (s : Globals), (∀ op ∈ l, op.drawInRange) →
      (20000 ≤ s.randomMouseDelay ∧ s.randomMouseDelay < 55000) →
      20000 ≤ (runOps s l).randomMouseDelay ∧ (runOps s l).randomMouseDelay < 55000 := by
    intro l
    induction l with
    | nil => intro s _ hs; exact hs
    | cons op l ih =>
      intro s hl hs
      exact ih (op.apply s) (fun o ho => hl o (List.mem_cons_of_mem _ ho))
        (Op.apply_delay op s (hl op (List.mem_cons_self _ _)) hs)
  exact hgen ops _ hops hr

/-- Witness of C13: `setup` draws 20000; then an idle poll that re-rolls to
54999, a mute poll, both emissions and a whole cycle that re-rolls to 31337. -/
theorem delay_invariant_witness :
    (20000 ≤ 20000 ∧ 20000 < 55000) ∧
    (∀ op ∈ [Op.shouldMoveMouse LOW 20001 20001 54999, Op.shouldMuteTeams LOW 20001 20001,
        Op.moveMouse, Op.sendMuteCommand,
        Op.loop ⟨LOW, LOW, 90000, 90000, 90000, 90000, 31337⟩], op.drawInRange) ∧
    (runOps (setup 7 20000 initGlobals).globals
      [Op.shouldMoveMouse LOW 20001 20001 54999, Op.shouldMuteTeams LOW 20001 20001,
        Op.moveMouse, Op.sendMuteCommand,
        Op.loop ⟨LOW, LOW, 90000, 90000, 90000, 90000, 31337⟩]).randomMouseDelay = 31337 ∧
    (20000 ≤ (runOps (setup 7 20000 initGlobals).globals
      [Op.shouldMoveMouse LOW 20001 20001 54999, Op.shouldMuteTeams LOW 20001 20001,
        Op.moveMouse, Op.sendMuteCommand,
        Op.loop ⟨LOW, LOW, 90000, 90000, 90000, 90000, 31337⟩]).randomMouseDelay ∧
      (runOps (setup 7 20000 initGlobals).globals
      [Op.shouldMoveMouse LOW 20001 20001 54999, Op.shouldMuteTeams LOW 20001 20001,
        Op.moveMouse, Op.sendMuteCommand,
        Op.loop ⟨LOW, LOW, 90000, 90000, 90000, 90000, 31337⟩]).randomMouseDelay < 55000) :=
  ⟨by decide, by decide, by decide,
    delay_invariant initGlobals 7 20000
      [Op.shouldMoveMouse LOW 20001 20001 54999, Op.shouldMuteTeams LOW 20001 20001,
        Op.moveMouse, Op.sendMuteCommand,
        Op.loop ⟨LOW, LOW, 90000, 90000, 90000, 90000, 31337⟩]
      (by decide) (by decide)⟩

/-- C19: `buttonState` is dead state. Two states that differ only in
`buttonState` give the same return value, `lastDebounceTime` and
`lastButtonState` (indeed the same globals up to `buttonState`) on the same
time and raw level; and in every state reached from the zero-initialised
globals by any sequence of calls, `buttonState` is `LOW`. -/
theorem buttonState_dead (g : Globals) (b : Level) (now : Nat) (raw : Level) :
    (pollMuteTrigger now raw { g with buttonState := b }).ret = (pollMuteTrigger now raw g).ret ∧
    (pollMuteTrigger now raw { g with buttonState := b }).globals.lastDebounceTime =
      (pollMuteTrigger now raw g).globals.lastDebounceTime ∧
    (pollMuteTrigger now raw { g with buttonState := b }).globals.lastButtonState =
      (pollMuteTrigger now raw g).globals.lastButtonState ∧
    (∀ c : Level, { (pollMuteTrigger now raw { g with buttonState := b }).globals with
        buttonState := c } = { (pollMuteTrigger now raw g).globals with buttonState := c }) ∧
    (∀ ops : List Op, (runOps initGlobals ops).buttonState = LOW) := by
  refine ⟨?_, ?_, ?_, ?_, ?_⟩
  · rw [pollMuteTrigger_ret, pollMuteTrigger_ret]
    by_cases hedge : raw = g.lastButtonState
    · rw [(pollMuteTrigger_globals now raw g).2.2.1 hedge,
        (pollMuteTrigger_globals now raw { g with buttonState := b }).2.2.1 hedge]
    · rw [(pollMuteTrigger_globals now raw g).2.2.2 hedge,
        (pollMuteTrigger_globals now raw { g with buttonState := b }).2.2.2 hedge]
  · by_cases hedge : raw = g.lastButtonState
    · rw [(pollMuteTrigger_globals now raw g).2.2.1 hedge,
        (pollMuteTrigger_globals now raw { g with buttonState := b }).2.2.1 hedge]
    · rw [(pollMuteTrigger_globals now raw g).2.2.2 hedge,
        (pollMuteTrigger_globals now raw { g with buttonState := b }).2.2.2 hedge]
  · rw [(pollMuteTrigger_globals now raw g).2.1,
      (pollMuteTrigger_globals now raw { g with buttonState := b }).2.1]
  · intro c
    unfold pollMuteTrigger shouldMuteTeams
    by_cases hedge : raw = g.lastButtonState
    · simp only [hedge, ne_eq, not_true_eq_false, if_false]
      split <;> try split
      all_goals rfl
    · simp only [ne_eq, hedge, not_false_eq_true, if_true]
      split <;> try split
      all_goals rfl
  · have hgen : ∀ (l : List Op) (s : Globals), s.buttonState = LOW →
        (runOps s l).buttonState = LOW := by
      intro l
      induction l with
      | nil => intro s hs; exact hs
      | cons op l ih => intro s hs; exact ih (op.apply s) (Op.apply_buttonState op s hs)
    intro ops
    exact hgen ops initGlobals rfl

theorem mouseMoves_append (xs ys : List Effect) :
    mouseMoves (xs ++ ys) = mouseMoves xs ++ mouseMoves ys := by
  induction xs with
  | nil => simp [mouseMoves]
  | cons x xs ih => cases x <;> simp [mouseMoves, ih]

theorem keyPresses_append (xs ys : List Effect) :
    keyPresses (xs ++ ys) = keyPresses xs ++ keyPresses ys := by
  induction xs with
  | nil => simp [keyPresses]
  | cons x xs ih => cases x <;> simp [keyPresses, ih]

theorem shouldMoveMouse_trace_quiet (sw : Level) (tTest tStore rnd : Nat) (g : Globals) :
    mouseMoves (shouldMoveMouse sw tTest tStore rnd g).trace = [] ∧
    keyPresses (shouldMoveMouse sw tTest tStore rnd g).trace = [] := by
  unfold shouldMoveMouse
  split <;> try split
  all_goals simp [mouseMoves, keyPresses]

theorem shouldMuteTeams_trace (reading : Level) (tStore tTest : Nat) (g : Globals) :
    (shouldMuteTeams reading tStore tTest g).trace = [] := by
  unfold shouldMuteTeams
  simp only
  split_ifs <;> rfl

theorem shouldMoveMouse_disabled (tTest tStore rnd : Nat) (g : Globals) :
    (shouldMoveMouse HIGH tTest tStore rnd g).ret = false := by
  simp [shouldMoveMouse]

/-- The trace of one pass of `loop`: the effects of the idle-motion poll, then
the pointer motion if that poll returned true, then the mute command if the
mute poll, run on the globals the idle-motion poll left, returned true. -/
theorem loop_trace (i : CycleInput) (g : Globals) :
    (loop i g).trace =
      (shouldMoveMouse i.enableSwitch i.moveTest i.moveStore i.rnd g).trace ++
      (if (shouldMoveMouse i.enableSwitch i.moveTest i.moveStore i.rnd g).ret = true then
        (moveMouse (shouldMoveMouse i.enableSwitch i.moveTest i.moveStore i.rnd g).globals).trace
        else []) ++
      (if (shouldMuteTeams i.muteButton i.muteStore i.muteTest
          (shouldMoveMouse i.enableSwitch i.moveTest i.moveStore i.rnd g).globals).ret = true then
        (sendMuteCommand (shouldMuteTeams i.muteButton i.muteStore i.muteTest
          (shouldMoveMouse i.enableSwitch i.moveTest i.moveStore i.rnd g).globals).globals).trace
        else []) := by
  unfold loop
  simp only [shouldMuteTeams_trace, List.append_nil]
  by_cases ha : (shouldMoveMouse i.enableSwitch i.moveTest i.moveStore i.rnd g).ret = true
  · by_cases hc : (shouldMuteTeams i.muteButton i.muteStore i.muteTest
        (shouldMoveMouse i.enableSwitch i.moveTest i.moveStore i.rnd g).globals).ret = true
    · simp [ha, hc, moveMouse]
    · simp [ha, hc, moveMouse]
  · by_cases hc : (shouldMuteTeams i.muteButton i.muteStore i.muteTest
        (shouldMoveMouse i.enableSwitch i.moveTest i.moveStore i.rnd g).globals).ret = true
    · simp [ha, hc]
    · simp [ha, hc]

theorem loop_mouseMoves (i : CycleInput) (g : Globals) :
    mouseMoves (loop i g).trace =
      if (shouldMoveMouse i.enableSwitch i.moveTest i.moveStore i.rnd g).ret = true then
        [(1, 0, 0), (-1, 0, 0)] else [] := by
  rw [loop_trace, mouseMoves_append, mouseMoves_append, (shouldMoveMouse_trace_quiet _ _ _ _ _).1]
  have hmute : mouseMoves (if (shouldMuteTeams i.muteButton i.muteStore i.muteTest
      (shouldMoveMouse i.enableSwitch i.moveTest i.moveStore i.rnd g).globals).ret = true then
      (sendMuteCommand (shouldMuteTeams i.muteButton i.muteStore i.muteTest
        (shouldMoveMouse i.enableSwitch i.moveTest i.moveStore i.rnd g).globals).globals).trace
      else []) = [] := by
    split <;> simp [sendMuteCommand, mouseMoves]
  rw [hmute]
  split <;> simp [moveMouse, mouseMoves]

/-! ### The driver -/

/-- C12: in one pass of `loop` the idle-motion controller runs first and the
mute-trigger controller second, on the globals the first left. The pointer
moves of the cycle are the two of `moveMouse` if `shouldMoveMouse` returned
true and none otherwise; its key presses are the chord of `sendMuteCommand` if
`shouldMuteTeams` returned true and none otherwise. A cycle whose enable switch
reads `HIGH` (disabled) emits no pointer move, in every cycle of every run. -/
theorem loop_emissions (i : CycleInput) (g : Globals) :
    (loop i g).trace =
      (shouldMoveMouse i.enableSwitch i.moveTest i.moveStore i.rnd g).trace ++
      (if (shouldMoveMouse i.enableSwitch i.moveTest i.moveStore i.rnd g).ret = true then
        (moveMouse (shouldMoveMouse i.enableSwitch i.moveTest i.moveStore i.rnd g).globals).trace
        else []) ++
      (if (shouldMuteTeams i.muteButton i.muteStore i.muteTest
          (shouldMoveMouse i.enableSwitch i.moveTest i.moveStore i.rnd g).globals).ret = true then
        (sendMuteCommand (shouldMuteTeams i.muteButton i.muteStore i.muteTest
          (shouldMoveMouse i.enableSwitch i.moveTest i.moveStore i.rnd g).globals).globals).trace
        else []) ∧
    mouseMoves (loop i g).trace =
      (if (shouldMoveMouse i.enableSwitch i.moveTest i.moveStore i.rnd g).ret = true then
        [(1, 0, 0), (-1, 0, 0)] else []) ∧
    keyPresses (loop i g).trace =
      (if (shouldMuteTeams i.muteButton i.muteStore i.muteTest
          (shouldMoveMouse i.enableSwitch i.moveTest i.moveStore i.rnd g).globals).ret = true then
        [Key.KEY_LEFT_CTRL, Key.KEY_LEFT_SHIFT, Key.char 'm'] else []) ∧
    (i.enableSwitch = HIGH → mouseMoves (loop i g).trace = []) ∧
    (∀ (cycles : List CycleInput) (g0 : Globals),
      ∀ p ∈ List.zip cycles (runLoop g0 cycles),
        p.1.enableSwitch = HIGH → mouseMoves p.2.trace = []) := by
  have hoff : ∀ (j : CycleInput) (s : Globals),
      j.enableSwitch = HIGH → mouseMoves (loop j s).trace = [] := by
    intro j s hj
    rw [loop_mouseMoves, hj, shouldMoveMouse_disabled]
    simp
  refine ⟨loop_trace i g, loop_mouseMoves i g, ?_, hoff i g, ?_⟩
  · rw [loop_trace, keyPresses_append, keyPresses_append,
      (shouldMoveMouse_trace_quiet _ _ _ _ _).2]
    have hmove : keyPresses
        (if (shouldMoveMouse i.enableSwitch i.moveTest i.moveStore i.rnd g).ret = true then
          (moveMouse (shouldMoveMouse i.enableSwitch i.moveTest i.moveStore i.rnd g).globals).trace
          else []) = [] := by
      split <;> simp [moveMouse, keyPresses]
    rw [hmove]
    split <;> simp [sendMuteCommand, keyPresses]
  · intro cycles
    induction cycles with
    | nil => intro g0 p hp; simp [runLoop] at hp
    | cons j js ih =>
      intro g0 p hp hsw
      simp only [runLoop, List.zip_cons_cons, List.mem_cons] at hp
      rcases hp with rfl | hp
      · exact hoff j g0 hsw
      · exact ih (loop j g0).globals p hp hsw

/-- Witness of C12: a cycle with the switch `HIGH` and the button held since
1000 emits the mute chord and no pointer move. -/
theorem loop_emissions_witness :
    (⟨HIGH, LOW, 90000, 90000, 90000, 90000, 31337⟩ : CycleInput).enableSwitch = HIGH ∧
    mouseMoves (loop ⟨HIGH, LOW, 90000, 90000, 90000, 90000, 31337⟩
      { initGlobals with lastButtonState := LOW, lastDebounceTime := 1000 }).trace = [] ∧
    keyPresses (loop ⟨HIGH, LOW, 90000, 90000, 90000, 90000, 31337⟩
      { initGlobals with lastButtonState := LOW, lastDebounceTime := 1000 }).trace =
      [Key.KEY_LEFT_CTRL, Key.KEY_LEFT_SHIFT, Key.char 'm'] :=
  ⟨rfl,
    (loop_emissions ⟨HIGH, LOW, 90000, 90000, 90000, 90000, 31337⟩
      { initGlobals with lastButtonState := LOW, lastDebounceTime := 1000 }).2.2.2.1 rfl,
    by decide⟩

/-! ### Spacing of idle motion -/

theorem runIdle_append (g : Globals) (ps qs : List (Nat × Bool × Nat)) :
    runIdle g (ps ++ qs) =
      ((runIdle g ps).1 ++ (runIdle (runIdle g ps).2 qs).1, (runIdle (runIdle g ps).2 qs).2) := by
  induction ps generalizing g with
  | nil => simp [runIdle]
  | cons p ps ih => simp [runIdle, ih]

theorem pollIdleMotion_true_state (now : Nat) (en : Bool) (rnd : Nat) (g : Globals)
    (h : (pollIdleMotion now en rnd g).ret = true) :
    (pollIdleMotion now en rnd g).globals.lastMoveTime = now ∧
    (pollIdleMotion now en rnd g).globals.randomMouseDelay = rnd := by
  unfold pollIdleMotion shouldMoveMouse at h ⊢
  split at h <;> try split at h
  all_goals simp_all

theorem pollIdleMotion_quiet (now : Nat) (en : Bool) (rnd : Nat) (g : Globals)
    (h : usub now g.lastMoveTime ≤ g.randomMouseDelay) :
    (pollIdleMotion now en rnd g).ret = false ∧ (pollIdleMotion now en rnd g).globals = g := by
  have hn : ¬ g.randomMouseDelay < usub now g.lastMoveTime := Nat.not_lt.2 h
  unfold pollIdleMotion shouldMoveMouse
  split <;> simp [hn]

/-- A run of idle-motion polls none of which sees the delay elapsed: every
poll returns false and the globals are what they were. -/
theorem runIdle_quiet (qs : List (Nat × Bool × Nat)) (g : Globals)
    (h : ∀ q ∈ qs, usub q.1 g.lastMoveTime ≤ g.randomMouseDelay) :
    (runIdle g qs).2 = g ∧ ∀ b ∈ (runIdle g qs).1, b = false := by
  induction qs with
  | nil => simp [runIdle]
  | cons q qs ih =>
    obtain ⟨hret, hglob⟩ := pollIdleMotion_quiet q.1 q.2.1 q.2.2 g (h q (by simp))
    obtain ⟨h1, h2⟩ := ih (fun r hr => h r (by simp [hr]))
    simp only [runIdle, hglob, hret, h1, List.mem_cons, forall_eq_or_imp, true_and]
    exact h2

/-- C14 (minimum spacing of idle motion): after `setup` (draw `rnd0`) on the
initial globals, run idle-motion polls with non-decreasing clock values below
`2^32`: the polls `pre`, a poll at `t` drawing `d`, the polls `mid`, a poll at
`t'`; draws are in `[20000, 55000)`. A poll at a time `≤ 20000` returns false.
If the poll at `t` returns true, the poll at `t'` returns false whenever
`t' - t ≤ d`, so if it returns true as well then `t' - t > 20000`. -/
theorem idle_min_spacing (analog rnd0 : Nat) (pre mid : List (Nat × Bool × Nat))
    (t : Nat) (en : Bool) (d : Nat) (t' : Nat) (en' : Bool) (r' : Nat)
    (hr0 : 20000 ≤ rnd0 ∧ rnd0 < 55000) (hd : 20000 ≤ d ∧ d < 55000)
    (hmono : (pre ++ [(t, en, d)] ++ mid ++ [(t', en', r')]).Pairwise (fun p q => p.1 ≤ q.1))
    (hwrap : t' < ULONG_MOD) :
    (t ≤ 20000 →
      (pollIdleMotion t en d (runIdle (setup analog rnd0 initGlobals).globals pre).2).ret = false) ∧
    (t' ≤ 20000 →
      (pollIdleMotion t' en' r'
        (runIdle (setup analog rnd0 initGlobals).globals (pre ++ [(t, en, d)] ++ mid)).2).ret
        = false) ∧
    ((pollIdleMotion t en d (runIdle (setup analog rnd0 initGlobals).globals pre).2).ret = true →
      (t' - t ≤ d →
        (pollIdleMotion t' en' r'
          (runIdle (setup analog rnd0 initGlobals).globals (pre ++ [(t, en, d)] ++ mid)).2).ret
          = false) ∧
      ((pollIdleMotion t' en' r'
          (runIdle (setup analog rnd0 initGlobals).globals (pre ++ [(t, en, d)] ++ mid)).2).ret
          = true → t' - t > 20000)) := by
  -- the globals `setup` leaves
  have hg0 : (setup analog rnd0 initGlobals).globals.lastMoveTime = 0 := rfl
  have hg1 : (setup analog rnd0 initGlobals).globals.randomMouseDelay = rnd0 := rfl
  -- what the order of the clock values gives
  obtain ⟨hfront, -, hlast⟩ := List.pairwise_append.1 hmono
  obtain ⟨hpt, -, hmid⟩ := List.pairwise_append.1 hfront
  have hpre : ∀ q ∈ pre, q.1 ≤ t := fun q hq =>
    (List.pairwise_append.1 hpt).2.2 q hq (t, en, d) (by simp)
  have hmid_ge : ∀ q ∈ mid, t ≤ q.1 := fun q hq => hmid (t, en, d) (by simp) q hq
  have hle_last : ∀ q ∈ pre ++ [(t, en, d)] ++ mid, q.1 ≤ t' := fun q hq =>
    hlast q hq (t', en', r') (by simp)
  have htt : t ≤ t' := hle_last (t, en, d) (by simp)
  -- clock values up to 20000 never see the first delay elapsed
  have hearly : ∀ (qs : List (Nat × Bool × Nat)) (u : Nat), u ≤ 20000 → (∀ q ∈ qs, q.1 ≤ u) →
      (runIdle (setup analog rnd0 initGlobals).globals qs).2 =
        (setup analog rnd0 initGlobals).globals ∧
      ∀ (e : Bool) (r : Nat), (pollIdleMotion u e r
        (runIdle (setup analog rnd0 initGlobals).globals qs).2).ret = false := by
    intro qs u hu hqs
    have hq := runIdle_quiet qs (setup analog rnd0 initGlobals).globals (by
      intro q hq
      have h1 := hqs q hq
      rw [hg0, hg1, usub_of_le q.1 0 (Nat.zero_le _) (by unfold ULONG_MOD; omega)]
      omega)
    refine ⟨hq.1, fun e r => ?_⟩
    rw [hq.1]
    refine (pollIdleMotion_quiet u e r _ ?_).1
    rw [hg0, hg1, usub_of_le u 0 (Nat.zero_le _) (by unfold ULONG_MOD; omega)]
    omega
  refine ⟨fun ht => (hearly pre t ht hpre).2 en d,
    fun ht' => (hearly _ t' ht' hle_last).2 en' r', fun htrue => ?_⟩
  -- after the poll at `t` returned true
  obtain ⟨hs1, hs2⟩ := pollIdleMotion_true_state t en d _ htrue
  have hrun : (runIdle (setup analog rnd0 initGlobals).globals (pre ++ [(t, en, d)] ++ mid)).2 =
      (runIdle (pollIdleMotion t en d
        (runIdle (setup analog rnd0 initGlobals).globals pre).2).globals mid).2 := by
    simp [runIdle_append, runIdle]
  have hwithin : t' - t ≤ d →
      (pollIdleMotion t' en' r'
        (runIdle (setup analog rnd0 initGlobals).globals (pre ++ [(t, en, d)] ++ mid)).2).ret
        = false := by
    intro hclose
    have hq := runIdle_quiet mid (pollIdleMotion t en d
        (runIdle (setup analog rnd0 initGlobals).globals pre).2).globals (by
      intro q hq
      have h1 := hmid_ge q hq
      have h2 := hle_last q (by simp [hq])
      rw [hs1, hs2, usub_of_le q.1 t h1 (by omega)]
      omega)
    rw [hrun, hq.1]
    refine (pollIdleMotion_quiet t' en' r' _ ?_).1
    rw [hs1, hs2, usub_of_le t' t htt hwrap]
    exact hclose
  refine ⟨hwithin, fun htrue' => ?_⟩
  by_contra hnot
  have hclose : t' - t ≤ d := by omega
  rw [hwithin hclose] at htrue'
  exact Bool.noConfusion htrue'

/-- Witness of C14: `setup` draws 20000; polls at 100 (false), at 20001 (true,
draws 25000), at 30000, and at 45001, which is exactly 25000 ms later and
returns false. -/
theorem idle_min_spacing_witness :
    (20000 ≤ 20000 ∧ 20000 < 55000) ∧ (20000 ≤ 25000 ∧ 25000 < 55000) ∧
    List.Pairwise (fun (p q : Nat × Bool × Nat) => p.1 ≤ q.1)
      ([(100, true, 30000)] ++ [(20001, true, 25000)] ++ [(30000, true, 31000)] ++
        [(45001, true, 40000)]) ∧
    45001 < ULONG_MOD ∧
    (runIdle (setup 7 20000 initGlobals).globals
      [(100, true, 30000), (20001, true, 25000), (30000, true, 31000), (45001, true, 40000),
        (45002, true, 40000)]).1 = [false, true, false, false, true] ∧
    (pollIdleMotion 45001 true 40000
      (runIdle (setup 7 20000 initGlobals).globals
        ([(100, true, 30000)] ++ [(20001, true, 25000)] ++ [(30000, true, 31000)])).2).ret
      = false :=
  ⟨by decide, by decide, by decide, by decide, by decide,
    ((idle_min_spacing 7 20000 [(100, true, 30000)] [(30000, true, 31000)]
      20001 true 25000 45001 true 40000 (by decide) (by decide) (by decide) (by decide)).2.2
      (by decide)).1 (by decide)⟩

end NoSleep
